import Mathlib

/-!
Verification development for the neon-operator reconciliation engine.

Shallow embedding of the operator's core routines: the generic status
synchronizer (utils/status.go), the identifier generator (utils/ids.go),
the sub-resource create-or-patch synchronizer shared by the controllers,
the storage control-plane HTTP response classification, the Project and
Branch identifier-generation passes, the per-controller not-found
handling, and the JWT credential wrapper.

External collaborators (the Kubernetes API store, the HTTP transport, and
the Ed25519/JWT library) are modelled as explicit oracle inputs: each call
site receives the outcome the collaborator would have produced, so every
control path of the Go source is a computable branch of the Lean
definition.
-/

namespace NeonOperator

/-- metav1.Condition: a typed boolean assertion on a resource status.
`lastTransitionTime` is modelled as a Nat timestamp. -/
structure Condition where
  condType : String
  condStatus : String
  reason : String
  message : String
  lastTransitionTime : Nat
deriving DecidableEq, Repr

/-- The common shape of the five resource statuses:
a phase string plus an ordered condition list. -/
structure ResourceStatus where
  phase : String
  conditions : List Condition
deriving DecidableEq, Repr

/-- A declared-state resource as seen by the status synchronizer:
identity, an opaque desired-state payload, opaque metadata, and a status.
Spec and labels are opaque because SetPhases never inspects them; they are
carried to state frame properties. -/
structure NeonObject where
  name : String
  ns : String
  spec : String
  labels : List (String × String)
  status : ResourceStatus
deriving DecidableEq, Repr

/-- updateCondition from utils/status.go: replace the first condition with
the same type, else append. -/
def updateCondition (conditions : List Condition) (newCond : Condition) :
    List Condition :=
  match conditions with
  | [] => [newCond]
  | c :: rest =>
    if c.condType = newCond.condType then newCond :: rest
    else c :: updateCondition rest newCond

/-- Apply the ordered mutation functions, as the statusfn loop in
SetPhases does. -/
def applyStatusFns (fns : List (NeonObject → NeonObject)) (obj : NeonObject) :
    NeonObject :=
  fns.foldl (fun acc f => f acc) obj

/-- Everything observable about one SetPhases invocation: the returned
error (if any), the caller's in-memory object after the call, and the
status-subresource patch that was sent to the store (if any). -/
structure SetPhasesOutcome where
  retErr : Option String
  objAfter : NeonObject
  patchSent : Option NeonObject
deriving DecidableEq, Repr

/-- SetPhases from utils/status.go.

`getRes` is the outcome of the client Get of the latest stored revision;
`patchRes` is the outcome the store would give the status patch.
The source takes a deep copy `original` of the caller's object before the
Get, deep-copies the freshly read `current` into `updated`, applies each
mutation to `updated`, compares `original`'s status with `updated`'s
status by deep equality, returns nil without patching when they are
equal, otherwise issues the status patch and, on success, copies only the
updated status back onto the caller's object. -/
def SetPhases (getRes : Except String NeonObject)
    (patchRes : Except String Unit) (obj : NeonObject)
    (statusfns : List (NeonObject → NeonObject)) : SetPhasesOutcome :=
  match getRes with
  | .error e => { retErr := some e, objAfter := obj, patchSent := none }
  | .ok current =>
    let updated := applyStatusFns statusfns current
    if obj.status = updated.status then
      { retErr := none, objAfter := obj, patchSent := none }
    else
      match patchRes with
      | .error e =>
        { retErr := some e, objAfter := obj, patchSent := some updated }
      | .ok _ =>
        { retErr := none
          objAfter := { obj with status := updated.status }
          patchSent := some updated }

/-- A structural document value, as the apimachinery semantic comparison
sees a sub-resource spec: scalars, ordered lists and string-keyed field
maps. `null` stands for an unset field. -/
inductive JSON where
  | null : JSON
  | str : String → JSON
  | num : Int → JSON
  | arr : List JSON → JSON
  | obj : List (String × JSON) → JSON
deriving Repr

/-- Field lookup by key: first binding wins. -/
def lookupField (k : String) : List (String × JSON) → Option JSON
  | [] => none
  | (k₂, v) :: rest => if k₂ = k then some v else lookupField k rest

/-- Is this value the unset marker? -/
def JSON.isNull : JSON → Bool
  | .null => true
  | _ => false

mutual
/-- equality.Semantic.DeepDerivative: every field set in the intended
value (first argument) must match the stored value (second argument);
unset intended fields and extra stored fields are ignored; lists must
match in length and pointwise. -/
def DeepDerivative : JSON → JSON → Bool
  | .null, _ => true
  | .str s, .str t => s = t
  | .num a, .num b => a = b
  | .arr xs, .arr ys => xs.length = ys.length && derivList xs ys
  | .obj fs, .obj gs => derivFields fs gs
  | _, _ => false

/-- Pointwise derivative comparison of list elements. -/
def derivList : List JSON → List JSON → Bool
  | [], _ => true
  | _ :: _, [] => false
  | x :: xs, y :: ys => DeepDerivative x y && derivList xs ys

/-- Each intended field must be derivative-equal to the stored field of
the same key; an intended field missing from the stored map matches only
if it is unset. -/
def derivFields : List (String × JSON) → List (String × JSON) → Bool
  | [], _ => true
  | (k, v) :: fs, gs =>
    (match lookupField k gs with
     | some w => DeepDerivative v w
     | none => v.isNull) && derivFields fs gs
end

mutual
/-- Well-formed documents: field maps never repeat a key. -/
def JSON.wf : JSON → Bool
  | .null => true
  | .str _ => true
  | .num _ => true
  | .arr xs => wfList xs
  | .obj fs => ((fs.map Prod.fst).Nodup : Bool) && wfFields fs

def wfList : List JSON → Bool
  | [] => true
  | x :: xs => x.wf && wfList xs

def wfFields : List (String × JSON) → Bool
  | [] => true
  | (_, v) :: fs => v.wf && wfFields fs
end

/-- A sub-resource document: name, a structural spec, and an optional
ownership link. -/
structure SubDoc where
  docName : String
  docSpec : JSON
  ownerRef : Option String
deriving Repr

/-- The writes a sub-resource synchronizer can issue against the store. -/
inductive SubAction where
  | create (d : SubDoc)
  | applyPatch (d : SubDoc)
  | delete (name : String)
deriving Repr

/-- Lookup outcome for the stored object. -/
inductive GetOutcome (α : Type) where
  | found (a : α)
  | notFound
  | otherErr (e : String)
deriving Repr

/-- The store-side outcomes one synchronization pass can observe. -/
structure SubEnv where
  stored : GetOutcome SubDoc
  setRefOK : Bool
  createRes : Except String Unit
  patchRes : Except String Unit

/-- The generic create-or-patch pass shared by every controller
(reconcilePod, reconcileDeployment, reconcileService, reconcileConfigMap):
look the stored object up by name; propagate a non-not-found lookup error;
set the ownership link on the intended document; on not-found create the
intended document; otherwise patch only when the intended spec is not a
structural subset of the stored spec. Never deletes. -/
def reconcileSubresource (owner : String) (intended : SubDoc)
    (env : SubEnv) : Except String Unit × List SubAction :=
  match env.stored with
  | .otherErr e => (.error ("failed to get: " ++ e), [])
  | stored =>
    if !env.setRefOK then
      (.error "failed to set controller reference", [])
    else
      let intendedOwned := { intended with ownerRef := some owner }
      match stored with
      | .notFound =>
        (match env.createRes with
         | .error e => (.error ("failed to create: " ++ e),
             [.create intendedOwned])
         | .ok _ => (.ok (), [.create intendedOwned]))
      | .found current =>
        if !(DeepDerivative intendedOwned.docSpec current.docSpec) then
          (match env.patchRes with
           | .error e => (.error ("failed to update: " ++ e),
               [.applyPatch intendedOwned])
           | .ok _ => (.ok (), [.applyPatch intendedOwned]))
        else
          (.ok (), [])
      | .otherErr e => (.error ("failed to get: " ++ e), [])

/-- The create-only persistent-volume-claim pass (reconcilePVC of the
Pageserver and Safekeeper controllers): identical to the generic pass on
the lookup-error, reference and not-found branches, but when the stored
claim exists it returns without comparing or patching. -/
def reconcilePVC (owner : String) (intended : SubDoc) (env : SubEnv) :
    Except String Unit × List SubAction :=
  match env.stored with
  | .otherErr e => (.error ("failed to get: " ++ e), [])
  | stored =>
    if !env.setRefOK then
      (.error "failed to set controller reference", [])
    else
      let intendedOwned := { intended with ownerRef := some owner }
      match stored with
      | .notFound =>
        (match env.createRes with
         | .error e => (.error ("failed to create: " ++ e),
             [.create intendedOwned])
         | .ok _ => (.ok (), [.create intendedOwned]))
      | .found _ => (.ok (), [])
      | .otherErr e => (.error ("failed to get: " ++ e), [])

/-- A controller-runtime result: the requeue delay in seconds, zero for
an empty result. -/
structure CtrlResult where
  requeueAfterSec : Nat
deriving DecidableEq, Repr

/-- The error channel of an inner reconcile pass: either the sentinel
ErrRequeueAfterChange (soft-continue) or a real failure. -/
inductive GoError where
  | requeueAfterChange
  | failure (msg : String)
deriving DecidableEq, Repr

/-- What one inner reconcile pass produced: returned result and error,
the in-memory resource handle afterwards, and the externally visible
actions in order. -/
structure PassOut (α β : Type) where
  res : CtrlResult
  err : Option GoError
  handle : α
  actions : List β
deriving Repr

/-- Outcome of one HTTP exchange with the storage control-plane. -/
inductive HTTPResponse where
  | transportErr (e : String)
  | status (code : Nat)
deriving DecidableEq, Repr

/-- The Project resource spec: the fields the Project controller reads or
writes, plus an opaque remainder standing for concurrently edited spec
fields. -/
structure ProjectSpecDoc where
  clusterName : String
  tenantID : String
  otherFields : String
deriving DecidableEq, Repr

/-- A Project resource. -/
structure Project where
  pname : String
  pns : String
  pspec : ProjectSpecDoc
  pstatus : ResourceStatus
deriving DecidableEq, Repr

/-- The externally visible actions of a Project reconcile pass. -/
inductive ProjectAction where
  | statusWrite (phase : String)
  | readLatest
  | specPatch (doc : ProjectSpecDoc)
  | attachTenant (tenantID : String)
deriving DecidableEq, Repr

/-- updateTenantID of the Project controller: re-read the latest stored
revision, patch a copy of that revision with the generated tenant
identifier (leaving its other spec fields as read), and on success set
the identifier on the in-memory handle as well. -/
def updateTenantID (getLatest : Except String Project)
    (patchSpec : Except String Unit) (p : Project) (tenantID : String) :
    Except String Project × List ProjectAction :=
  match getLatest with
  | .error e => (.error e, [.readLatest])
  | .ok latest =>
    let patched := { latest.pspec with tenantID := tenantID }
    match patchSpec with
    | .error e => (.error e, [.readLatest, .specPatch patched])
    | .ok _ =>
      (.ok { p with pspec := { p.pspec with tenantID := tenantID } },
        [.readLatest, .specPatch patched])

/-- ensureTenantOnPageserver: PUT location_config for the project's
tenant. A transport failure writes the PageserverConnectionError status
(best effort) and returns the error; a status outside [200,300) writes
the TenantCreationFailed status (best effort) and returns an error; any
2xx status is success. -/
def ensureTenantOnPageserver (http : HTTPResponse)
    (setConnErr setTenantFailed : Except String ResourceStatus)
    (p : Project) : Except String Unit × Project × List ProjectAction :=
  match http with
  | .transportErr e =>
    let p₂ := match setConnErr with
      | .ok s => { p with pstatus := s }
      | .error _ => p
    (.error ("failed to connect to pageserver: " ++ e), p₂,
      [.attachTenant p.pspec.tenantID,
       .statusWrite "PageserverConnectionError"])
  | .status code =>
    if code < 200 || code ≥ 300 then
      let p₂ := match setTenantFailed with
        | .ok s => { p with pstatus := s }
        | .error _ => p
      (.error "pageserver returned error status", p₂,
        [.attachTenant p.pspec.tenantID, .statusWrite "TenantCreationFailed"])
    else
      (.ok (), p, [.attachTenant p.pspec.tenantID])

/-- The store and collaborator outcomes one Project reconcile pass can
observe, one field per call site. A successful SetPhases call yields the
status mirrored back onto the handle. -/
structure ProjectOracle where
  genID : String
  setPending : Except String ResourceStatus
  setCreating : Except String ResourceStatus
  getLatest : Except String Project
  patchSpec : Except String Unit
  setTenantFailed : Except String ResourceStatus
  http : HTTPResponse
  setConnErr : Except String ResourceStatus
  setReady : Except String ResourceStatus

/-- The inner reconcile of the Project controller: set Pending on first
observation; when the tenant identifier is unset, set Creating, generate
an identifier, persist it via updateTenantID and return the
ErrRequeueAfterChange sentinel with a one-second requeue; otherwise
attach the tenant on the storage controller (a failure requeues after
ten seconds without a hard error) and finally set Ready. -/
def ProjectReconciler.reconcile (o : ProjectOracle) (p : Project) :
    PassOut Project ProjectAction :=
  let step₁ : Except String Project × List ProjectAction :=
    if p.pstatus.phase = "" then
      match o.setPending with
      | .error e => (.error ("error setting pending status: " ++ e),
          [.statusWrite "Pending"])
      | .ok s => (.ok { p with pstatus := s }, [.statusWrite "Pending"])
    else (.ok p, [])
  match step₁ with
  | (.error e, acts) =>
    { res := ⟨0⟩, err := some (.failure e), handle := p, actions := acts }
  | (.ok p₁, acts₁) =>
    if p₁.pspec.tenantID = "" then
      let tenantID := o.genID
      match o.setCreating with
      | .error e =>
        { res := ⟨0⟩, err := some (.failure ("error setting creating status: " ++ e))
          handle := p₁, actions := acts₁ ++ [.statusWrite "Creating"] }
      | .ok s =>
        let p₂ := { p₁ with pstatus := s }
        let acts₂ := acts₁ ++ [.statusWrite "Creating"]
        match updateTenantID o.getLatest o.patchSpec p₂ tenantID with
        | (.error e, uacts) =>
          let p₃ := match o.setTenantFailed with
            | .ok s₂ => { p₂ with pstatus := s₂ }
            | .error _ => p₂
          { res := ⟨0⟩, err := some (.failure ("failed to update tenant ID: " ++ e))
            handle := p₃
            actions := acts₂ ++ uacts ++ [.statusWrite "TenantCreationFailed"] }
        | (.ok p₃, uacts) =>
          { res := ⟨1⟩, err := some .requeueAfterChange, handle := p₃
            actions := acts₂ ++ uacts }
    else
      match ensureTenantOnPageserver o.http o.setConnErr o.setTenantFailed p₁ with
      | (.error _, p₂, eacts) =>
        { res := ⟨10⟩, err := none, handle := p₂, actions := acts₁ ++ eacts }
      | (.ok _, p₂, eacts) =>
        match o.setReady with
        | .error e =>
          { res := ⟨0⟩, err := some (.failure ("error setting ready status: " ++ e))
            handle := p₂, actions := acts₁ ++ eacts ++ [.statusWrite "Ready"] }
        | .ok s =>
          { res := ⟨0⟩, err := none, handle := { p₂ with pstatus := s }
            actions := acts₁ ++ eacts ++ [.statusWrite "Ready"] }

/-- Run the Project inner reconcile once per oracle, threading the
in-memory handle, as repeated invocations of the controller would. -/
def projectIterate : List ProjectOracle → Project → Project
  | [], p => p
  | o :: os, p => projectIterate os (ProjectReconciler.reconcile o p).handle

/-- The Branch resource spec. -/
structure BranchSpecDoc where
  projectID : String
  timelineID : String
  pgVersion : Nat
  otherFields : String
deriving DecidableEq, Repr

/-- A Branch resource. -/
structure Branch where
  bname : String
  bns : String
  bspec : BranchSpecDoc
  bstatus : ResourceStatus
deriving DecidableEq, Repr

/-- The externally visible actions of a Branch reconcile pass. -/
inductive BranchAction where
  | statusWrite (phase : String)
  | readLatest
  | specPatch (doc : BranchSpecDoc)
  | getOwningProject
  | createTimeline (tenantID timelineID : String)
  | childSync (kind : String)
deriving DecidableEq, Repr

/-- updateTimelineID of the Branch controller: same re-read-then-patch
pattern as updateTenantID. -/
def updateTimelineID (getLatest : Except String Branch)
    (patchSpec : Except String Unit) (b : Branch) (timelineID : String) :
    Except String Branch × List BranchAction :=
  match getLatest with
  | .error e => (.error e, [.readLatest])
  | .ok latest =>
    let patched := { latest.bspec with timelineID := timelineID }
    match patchSpec with
    | .error e => (.error e, [.readLatest, .specPatch patched])
    | .ok _ =>
      (.ok { b with bspec := { b.bspec with timelineID := timelineID } },
        [.readLatest, .specPatch patched])

/-- ensureTimeline: POST timeline for the branch. A transport failure is
an error; status 200, 201 and 409 are success; every other status is an
error. -/
def ensureTimeline (http : HTTPResponse) (tenantID timelineID : String) :
    Except String Unit × List BranchAction :=
  match http with
  | .transportErr e =>
    (.error ("failed to connect to pageserver: " ++ e),
      [.createTimeline tenantID timelineID])
  | .status code =>
    if code != 200 && code != 201 && code != 409 then
      (.error "failed to create timeline on pageserver",
        [.createTimeline tenantID timelineID])
    else
      (.ok (), [.createTimeline tenantID timelineID])

/-- The outcomes one Branch reconcile pass can observe. The four child
sub-resource passes are aggregated into one outcome; their individual
behavior is reconcileSubresource. -/
structure BranchOracle where
  genID : String
  setCreating : Except String ResourceStatus
  getLatest : Except String Branch
  patchSpec : Except String Unit
  projectGet : Except String Project
  http : HTTPResponse
  childRes : Except String Unit
  setCannotCreate : Except String ResourceStatus
  setReady : Except String ResourceStatus

/-- The inner reconcile of the Branch controller: set Creating on first
observation; when the timeline identifier is unset, persist a generated
one via updateTimelineID and return a one-second requeue with a nil
error; otherwise read the owning Project, create the timeline (a failure
requeues after ten seconds without a hard error), synchronize the child
resources (a failure sets CannotCreateResources and returns a hard
error), and finally set Ready. -/
def BranchReconciler.reconcile (o : BranchOracle) (b : Branch) :
    PassOut Branch BranchAction :=
  let step₁ : Except String Branch × List BranchAction :=
    if b.bstatus.phase = "" then
      match o.setCreating with
      | .error e => (.error ("error setting default Status: " ++ e),
          [.statusWrite "Creating"])
      | .ok s => (.ok { b with bstatus := s }, [.statusWrite "Creating"])
    else (.ok b, [])
  match step₁ with
  | (.error e, acts) =>
    { res := ⟨0⟩, err := some (.failure e), handle := b, actions := acts }
  | (.ok b₁, acts₁) =>
    if b₁.bspec.timelineID = "" then
      match updateTimelineID o.getLatest o.patchSpec b₁ o.genID with
      | (.error e, uacts) =>
        { res := ⟨0⟩, err := some (.failure ("failed to update timelineID: " ++ e))
          handle := b₁, actions := acts₁ ++ uacts }
      | (.ok b₂, uacts) =>
        { res := ⟨1⟩, err := none, handle := b₂, actions := acts₁ ++ uacts }
    else
      match o.projectGet with
      | .error e =>
        { res := ⟨0⟩, err := some (.failure ("failed to get project: " ++ e))
          handle := b₁, actions := acts₁ ++ [.getOwningProject] }
      | .ok project =>
        let acts₂ := acts₁ ++ [.getOwningProject]
        match ensureTimeline o.http project.pspec.tenantID b₁.bspec.timelineID with
        | (.error _, eacts) =>
          { res := ⟨10⟩, err := none, handle := b₁, actions := acts₂ ++ eacts }
        | (.ok _, eacts) =>
          let acts₃ := acts₂ ++ eacts ++ [.childSync "resources"]
          match o.childRes with
          | .error e =>
            let b₂ := match o.setCannotCreate with
              | .ok s => { b₁ with bstatus := s }
              | .error _ => b₁
            { res := ⟨0⟩
              err := some (.failure ("not able to create branch resources: " ++ e))
              handle := b₂
              actions := acts₃ ++ [.statusWrite "CannotCreateResources"] }
          | .ok _ =>
            match o.setReady with
            | .error e =>
              { res := ⟨0⟩
                err := some (.failure ("failed to update branch status to ready: " ++ e))
                handle := b₁, actions := acts₃ ++ [.statusWrite "Ready"] }
            | .ok s =>
              { res := ⟨0⟩, err := none, handle := { b₁ with bstatus := s }
                actions := acts₃ ++ [.statusWrite "Ready"] }

/-- Run the Branch inner reconcile once per oracle, threading the
handle. -/
def branchIterate : List BranchOracle → Branch → Branch
  | [], b => b
  | o :: os, b => branchIterate os (BranchReconciler.reconcile o b).handle

/-- A Cluster resource (fields beyond identity and status are opaque at
this level). -/
structure Cluster where
  cname : String
  cns : String
  cspec : String
  cstatus : ResourceStatus
deriving DecidableEq, Repr

/-- A Safekeeper resource. -/
structure Safekeeper where
  skname : String
  skns : String
  skspec : String
  skstatus : ResourceStatus
deriving DecidableEq, Repr

/-- A Pageserver resource. -/
structure Pageserver where
  psname : String
  psns : String
  psspec : String
  psstatus : ResourceStatus
deriving DecidableEq, Repr

/-- What a top-level Reconcile invocation produced: either a returned
(result, error, actions) triple, or a runtime panic. -/
inductive ReconcileTopOut (β : Type) where
  | returned (res : CtrlResult) (err : Option String) (acts : List β)
  | panicked
deriving Repr

/-- The shared lookup helper shape (getCluster, getProject, getBranch,
getSafekeeper, getPageserver): not-found maps to a nil handle with a nil
error; any other lookup failure is wrapped and propagated. -/
def getResource {α : Type} (get : GetOutcome α) : Except String (Option α) :=
  match get with
  | .found a => .ok (some a)
  | .notFound => .ok none
  | .otherErr e => .error ("cannot get the resource: " ++ e)

/-- getCluster of the Cluster controller. -/
def getCluster (get : GetOutcome Cluster) : Except String (Option Cluster) :=
  getResource get

/-- getProject of the Project controller. -/
def getProjectByRequest (get : GetOutcome Project) :
    Except String (Option Project) :=
  getResource get

/-- getBranch of the Branch controller. -/
def getBranch (get : GetOutcome Branch) : Except String (Option Branch) :=
  getResource get

/-- getSafekeeper of the Safekeeper controller. -/
def getSafekeeper (get : GetOutcome Safekeeper) :
    Except String (Option Safekeeper) :=
  getResource get

/-- getPageserver of the Pageserver controller. -/
def getPageserver (get : GetOutcome Pageserver) :
    Except String (Option Pageserver) :=
  getResource get

/-- Map an inner pass error to the top-level return: the
ErrRequeueAfterChange sentinel is swallowed (the inner result is
returned with a nil error); a real failure returns an empty result with
the error; otherwise the inner result is returned. -/
def dispatchInner {β : Type} (out : CtrlResult × Option GoError × List β) :
    ReconcileTopOut β :=
  match out.2.1 with
  | some .requeueAfterChange => .returned out.1 none out.2.2
  | some (.failure m) => .returned ⟨0⟩ (some m) out.2.2
  | none => .returned out.1 none out.2.2

/-- The Cluster controller's Reconcile. The source checks only the error
of getCluster; when the lookup reports not-found it proceeds with a nil
handle and dereferences cluster.Name, a nil-pointer panic. -/
def ClusterReconciler.Reconcile {β : Type} (get : GetOutcome Cluster)
    (inner : Cluster → CtrlResult × Option GoError × List β) :
    ReconcileTopOut β :=
  match getCluster get with
  | .error e => .returned ⟨0⟩ (some e) []
  | .ok none => .panicked
  | .ok (some c) => dispatchInner (inner c)

/-- The Project controller's Reconcile: a not-found lookup returns an
empty result with a nil error before anything else runs. -/
def ProjectReconciler.Reconcile {β : Type} (get : GetOutcome Project)
    (inner : Project → CtrlResult × Option GoError × List β) :
    ReconcileTopOut β :=
  match getProjectByRequest get with
  | .error e => .returned ⟨0⟩ (some e) []
  | .ok none => .returned ⟨0⟩ none []
  | .ok (some p) => dispatchInner (inner p)

/-- The Branch controller's Reconcile: same silent not-found exit. -/
def BranchReconciler.Reconcile {β : Type} (get : GetOutcome Branch)
    (inner : Branch → CtrlResult × Option GoError × List β) :
    ReconcileTopOut β :=
  match getBranch get with
  | .error e => .returned ⟨0⟩ (some e) []
  | .ok none => .returned ⟨0⟩ none []
  | .ok (some b) => dispatchInner (inner b)

/-- The Safekeeper controller's Reconcile: same silent not-found exit. -/
def SafekeeperReconciler.Reconcile {β : Type} (get : GetOutcome Safekeeper)
    (inner : Safekeeper → CtrlResult × Option GoError × List β) :
    ReconcileTopOut β :=
  match getSafekeeper get with
  | .error e => .returned ⟨0⟩ (some e) []
  | .ok none => .returned ⟨0⟩ none []
  | .ok (some sk) => dispatchInner (inner sk)

/-- The Pageserver controller's Reconcile: same silent not-found exit. -/
def PageserverReconciler.Reconcile {β : Type} (get : GetOutcome Pageserver)
    (inner : Pageserver → CtrlResult × Option GoError × List β) :
    ReconcileTopOut β :=
  match getPageserver get with
  | .error e => .returned ⟨0⟩ (some e) []
  | .ok none => .returned ⟨0⟩ none []
  | .ok (some ps) => dispatchInner (inner ps)

/-- The four child synchronizations of the Pageserver controller, with a
tag naming which child an action belongs to. -/
inductive PSStep where
  | configMapStep
  | pvcStep
  | podStep
  | serviceStep
deriving DecidableEq, Repr

/-- The store outcomes one createPageserverResources pass can observe. -/
structure PageserverEnv where
  bucketSecretGet : Except String Unit
  configMapEnv : SubEnv
  pvcEnv : SubEnv
  clusterGet : Except String Unit
  podEnv : SubEnv
  serviceEnv : SubEnv

/-- createPageserverResources: reconcile, in the order of the source, the
bootstrap config map (after reading the bucket-credentials secret), the
persistent-volume claim, the pod (after reading the parent cluster), and
the service, stopping at the first failure. -/
def createPageserverResources (owner : String)
    (cmDoc pvcDoc podDoc svcDoc : SubDoc) (env : PageserverEnv) :
    Except String Unit × List (PSStep × SubAction) :=
  match env.bucketSecretGet with
  | .error e => (.error ("failed to get bucket credentials secret: " ++ e), [])
  | .ok _ =>
    match reconcileSubresource owner cmDoc env.configMapEnv with
    | (r₁, a₁) =>
      let acts₁ := a₁.map (fun a => (PSStep.configMapStep, a))
      match r₁ with
      | .error e => (.error e, acts₁)
      | .ok _ =>
        match reconcilePVC owner pvcDoc env.pvcEnv with
        | (r₂, a₂) =>
          let acts₂ := acts₁ ++ a₂.map (fun a => (PSStep.pvcStep, a))
          match r₂ with
          | .error e => (.error e, acts₂)
          | .ok _ =>
            match env.clusterGet with
            | .error e => (.error ("failed to get parent cluster: " ++ e), acts₂)
            | .ok _ =>
              match reconcileSubresource owner podDoc env.podEnv with
              | (r₃, a₃) =>
                let acts₃ := acts₂ ++ a₃.map (fun a => (PSStep.podStep, a))
                match r₃ with
                | .error e => (.error e, acts₃)
                | .ok _ =>
                  match reconcileSubresource owner svcDoc env.serviceEnv with
                  | (r₄, a₄) =>
                    (r₄, acts₃ ++ a₄.map (fun a => (PSStep.serviceStep, a)))

/-- The identifier alphabet of utils/ids.go: lowercase, uppercase,
digits — 62 characters, not restricted to hexadecimal digits. -/
def idCharset : List Char :=
  "abcdefghijklmnopqrstuvwxyzABCDEFGHIJKLMNOPQRSTUVWXYZ1234567890".toList

/-- GenerateNeonID: 32 draws from a time-seeded math/rand stream, each
indexing the 62-character alphabet. The stream is modelled by `draw`;
the source's Intn guarantees an index below the alphabet length, which
the modulo makes explicit. -/
def GenerateNeonID (draw : Nat → Nat) : String :=
  String.mk ((List.range 32).map
    (fun i => idCharset.getD (draw i % idCharset.length) 'a'))

/-- Hexadecimal digit predicate, for the identifier-format claim. -/
def isHexDigit (c : Char) : Bool :=
  c.isDigit || ('a' ≤ c && c ≤ 'f') || ('A' ≤ c && c ≤ 'F')

/-- A JWT manager holds the two halves of one Ed25519 keypair, loaded
from the per-cluster secret. Keys are modelled symbolically by seed. -/
structure JWTManager where
  privateKey : Nat
  publicKey : Nat
deriving DecidableEq, Repr

/-- Modelled from the contract of the external Ed25519/jwx library: the
verification key derived from a signing key. Only its injectivity
matters: one signing key determines one verification key. -/
def ed25519Pub (priv : Nat) : Nat := priv

/-- Modelled from the contract of the external jwx library: a signed
token carries its claims and verifies under exactly the verification key
derived from the key that signed it (EdDSA signatures are assumed
unforgeable, so a valid signature identifies that key). -/
structure SignedToken where
  tokClaims : List (String × String)
  sigKey : Nat
deriving DecidableEq, Repr

/-- A candidate token string: either the serialization of a signed token
or a structurally invalid string that the parser rejects. -/
inductive TokenString where
  | wellFormed (t : SignedToken)
  | malformed (raw : String)
deriving DecidableEq, Repr

/-- GenerateToken: set the claims and sign with the manager's private
key (jwt.Sign with jwa.EdDSA). -/
def GenerateToken (jm : JWTManager) (claims : List (String × String)) :
    TokenString :=
  .wellFormed { tokClaims := claims, sigKey := ed25519Pub jm.privateKey }

/-- VerifyToken: jwt.Parse with the manager's public key. A structurally
invalid token fails to parse; a parsed token's signature verifies only
under the manager's public key; on any failure no claims are returned. -/
def VerifyToken (jm : JWTManager) (ts : TokenString) :
    Except String (List (String × String)) :=
  match ts with
  | .malformed _ => .error "failed to parse token"
  | .wellFormed t =>
    if t.sigKey = jm.publicKey then .ok t.tokClaims
    else .error "signature verification failed"

/-- Position of each Pageserver child synchronization in the source
order of createPageserverResources. -/
def stepRank : PSStep → Nat
  | .configMapStep => 0
  | .pvcStep => 1
  | .podStep => 2
  | .serviceStep => 3

/-- A concrete resource for exercising the status synchronizer. -/
def demoObj : NeonObject :=
  { name := "project-a", ns := "neon", spec := "spec-payload"
    labels := [("app", "neon")]
    status := { phase := "Ready", conditions := [] } }

/-- The same resource as freshly read from the store, carrying a
different stored status. -/
def demoCurrent : NeonObject :=
  { demoObj with status := { phase := "Creating", conditions := [] } }

/-- A concrete Project with its tenant identifier already set. -/
def demoProject : Project :=
  { pname := "proj-1", pns := "neon"
    pspec := { clusterName := "c1", tenantID := "t0123", otherFields := "keep" }
    pstatus := { phase := "Pending", conditions := [] } }

/-- A concrete Project whose tenant identifier is still unset, with an
extra spec field standing for a concurrent edit present in the store. -/
def demoProjectNoTenant : Project :=
  { pname := "proj-2", pns := "neon"
    pspec := { clusterName := "c1", tenantID := "", otherFields := "edited" }
    pstatus := { phase := "", conditions := [] } }

/-- An all-success oracle for one Project pass. -/
def demoProjectOracle : ProjectOracle :=
  { genID := "t9999"
    setPending := .ok { phase := "Pending", conditions := [] }
    setCreating := .ok { phase := "Creating", conditions := [] }
    getLatest := .ok demoProjectNoTenant
    patchSpec := .ok ()
    setTenantFailed := .ok { phase := "TenantCreationFailed", conditions := [] }
    http := .status 200
    setConnErr := .ok { phase := "PageserverConnectionError", conditions := [] }
    setReady := .ok { phase := "Ready", conditions := [] } }

/-- A concrete Branch with its timeline identifier already set. -/
def demoBranch : Branch :=
  { bname := "br-1", bns := "neon"
    bspec := { projectID := "proj-1", timelineID := "tl0123", pgVersion := 16
               otherFields := "keep" }
    bstatus := { phase := "Creating", conditions := [] } }

/-- A concrete Branch whose timeline identifier is still unset. -/
def demoBranchNoTimeline : Branch :=
  { bname := "br-2", bns := "neon"
    bspec := { projectID := "proj-1", timelineID := "", pgVersion := 16
               otherFields := "edited" }
    bstatus := { phase := "", conditions := [] } }

/-- An all-success oracle for one Branch pass. -/
def demoBranchOracle : BranchOracle :=
  { genID := "tl9999"
    setCreating := .ok { phase := "Creating", conditions := [] }
    getLatest := .ok demoBranchNoTimeline
    patchSpec := .ok ()
    projectGet := .ok demoProject
    http := .status 201
    childRes := .ok ()
    setCannotCreate := .ok { phase := "CannotCreateResources", conditions := [] }
    setReady := .ok { phase := "Ready", conditions := [] } }

/-- A small sub-resource document with a well-formed spec. -/
def demoDoc (nm : String) : SubDoc :=
  { docName := nm
    docSpec := .obj [("image", .str "neon:8463"), ("replicas", .num 1)]
    ownerRef := none }

/-- A store in which the object is missing and every write succeeds. -/
def subEnvMissing : SubEnv :=
  { stored := .notFound, setRefOK := true
    createRes := .ok (), patchRes := .ok () }

/-- A store that already holds the given document. -/
def subEnvHolding (d : SubDoc) : SubEnv :=
  { stored := .found d, setRefOK := true
    createRes := .ok (), patchRes := .ok () }

/-- A Pageserver environment in which every child is missing and every
store call succeeds. -/
def psAllOkEnv : PageserverEnv :=
  { bucketSecretGet := .ok ()
    configMapEnv := subEnvMissing
    pvcEnv := subEnvMissing
    clusterGet := .ok ()
    podEnv := subEnvMissing
    serviceEnv := subEnvMissing }

/-! ## Helper lemmas -/

theorem wfList_mem {xs : List JSON} {x : JSON} (h : wfList xs = true)
    (hx : x ∈ xs) : x.wf = true := by
  induction xs with
  | nil => cases hx
  | cons y ys ih =>
    simp only [wfList, Bool.and_eq_true] at h
    rcases List.mem_cons.mp hx with rfl | hx₂
    · exact h.1
    · exact ih h.2 hx₂

theorem wfFields_mem {fs : List (String × JSON)} {p : String × JSON}
    (h : wfFields fs = true) (hp : p ∈ fs) : p.2.wf = true := by
  induction fs with
  | nil => cases hp
  | cons q rest ih =>
    obtain ⟨k, v⟩ := q
    simp only [wfFields, Bool.and_eq_true] at h
    rcases List.mem_cons.mp hp with rfl | hp₂
    · exact h.1
    · exact ih h.2 hp₂

theorem lookupField_of_nodup {fs : List (String × JSON)} {k : String}
    {v : JSON} (hnd : (fs.map Prod.fst).Nodup) (hm : (k, v) ∈ fs) :
    lookupField k fs = some v := by
  induction fs with
  | nil => cases hm
  | cons p rest ih =>
    obtain ⟨k₂, w⟩ := p
    simp only [List.map_cons, List.nodup_cons] at hnd
    rcases List.mem_cons.mp hm with heq | hm₂
    · cases heq
      simp [lookupField]
    · have hk : ¬ (k₂ = k) := by
        intro h
        subst h
        exact hnd.1 (List.mem_map.mpr ⟨(k₂, v), hm₂, rfl⟩)
      simpa [lookupField, hk] using ih hnd.2 hm₂

theorem derivList_eq_self {xs : List JSON}
    (h : ∀ x ∈ xs, DeepDerivative x x = true) : derivList xs xs = true := by
  induction xs with
  | nil => simp [derivList]
  | cons x rest ih =>
    simp only [derivList, Bool.and_eq_true]
    exact ⟨h x (by simp), ih (fun y hy => h y (List.mem_cons_of_mem _ hy))⟩

theorem derivFields_of_lookup {fs gs : List (String × JSON)}
    (h : ∀ p ∈ fs, lookupField p.1 gs = some p.2
      ∧ DeepDerivative p.2 p.2 = true) : derivFields fs gs = true := by
  induction fs with
  | nil => simp [derivFields]
  | cons p rest ih =>
    obtain ⟨k, v⟩ := p
    have h₁ := h (k, v) (by simp)
    simp only [derivFields, Bool.and_eq_true]
    refine ⟨?_, ih (fun q hq => h q (List.mem_cons_of_mem _ hq))⟩
    simp [h₁.1, h₁.2]

theorem DeepDerivative_refl_bounded :
    ∀ (n : Nat) (a : JSON), sizeOf a < n → a.wf = true →
      DeepDerivative a a = true := by
  intro n
  induction n with
  | zero => exact fun a h _ => absurd h (Nat.not_lt_zero _)
  | succ n ih =>
    intro a hlt hwf
    cases a with
    | null => simp [DeepDerivative]
    | str s => simp [DeepDerivative]
    | num m => simp [DeepDerivative]
    | arr xs =>
      have hxs : ∀ x ∈ xs, DeepDerivative x x = true := by
        intro x hx
        have h₁ : sizeOf x < sizeOf xs := List.sizeOf_lt_of_mem hx
        have h₂ : sizeOf (JSON.arr xs) = 1 + sizeOf xs := by
          simp [JSON.arr.sizeOf_spec]
        refine ih x (by omega) (wfList_mem ?_ hx)
        simpa [JSON.wf] using hwf
      simp [DeepDerivative, derivList_eq_self hxs]
    | obj fs =>
      have hwf₂ : (fs.map Prod.fst).Nodup ∧ wfFields fs = true := by
        simpa [JSON.wf] using hwf
      have hfield : ∀ p ∈ fs, lookupField p.1 fs = some p.2
          ∧ DeepDerivative p.2 p.2 = true := by
        intro p hp
        obtain ⟨k, v⟩ := p
        refine ⟨lookupField_of_nodup hwf₂.1 hp, ?_⟩
        have h₁ : sizeOf (k, v) < sizeOf fs := List.sizeOf_lt_of_mem hp
        have h₂ : sizeOf v < sizeOf (k, v) := by
          simp [Prod.mk.sizeOf_spec]
        have h₃ : sizeOf (JSON.obj fs) = 1 + sizeOf fs := by
          simp [JSON.obj.sizeOf_spec]
        exact ih v (by omega) (wfFields_mem hwf₂.2 hp)
      simp [DeepDerivative, derivFields_of_lookup hfield]

theorem DeepDerivative_refl {a : JSON} (h : a.wf = true) :
    DeepDerivative a a = true :=
  DeepDerivative_refl_bounded (sizeOf a + 1) a (Nat.lt_succ_self _) h

theorem getD_mem_of_lt {l : List Char} {n : Nat} {d : Char}
    (h : n < l.length) : l.getD n d ∈ l := by
  induction l generalizing n with
  | nil => simp at h
  | cons x xs ih =>
    cases n with
    | zero => simp [List.getD_cons_zero]
    | succ m =>
      rw [List.getD_cons_succ]
      exact List.mem_cons_of_mem _ (ih (by simpa using h))

/-! ## Claim theorems -/

/-- C1 counterexample: SetPhases does not compare against the
freshly-read revision. Here the mutation functions leave the freshly-read
status exactly as stored (identity mutation), so the claim demands that
no patch be issued — yet SetPhases issues one, because it compares
against the caller's original status, which differs from the stored
one. -/
theorem SetPhases_patches_despite_unchanged_stored_status :
    (SetPhases (Except.ok demoCurrent) (Except.ok ()) demoObj
        [fun o => o]).patchSent = some demoCurrent
    ∧ (applyStatusFns [fun o => o] demoCurrent).status
      = demoCurrent.status := by
  exact ⟨rfl, rfl⟩

/-- C1 (amended): SetPhases applies the mutations to a copy of the
freshly-read revision but compares the result, by deep structural
equality, to the status of the caller's passed-in object, and issues a
status patch exactly when those two differ. -/
theorem SetPhases_patch_iff_differs_from_original
    (cur obj : NeonObject) (patchRes : Except String Unit)
    (fns : List (NeonObject → NeonObject)) :
    (SetPhases (Except.ok cur) patchRes obj fns).patchSent ≠ none
      ↔ (applyStatusFns fns cur).status ≠ obj.status := by
  unfold SetPhases
  by_cases h : obj.status = (applyStatusFns fns cur).status
  · simp [h]
  · cases patchRes <;> simp [h, eq_comm]

/-- C1 witness: a concrete invocation in which the mutated status
differs from the caller's original status, so a patch is sent. -/
theorem SetPhases_patch_iff_differs_from_original_witness :
    (SetPhases (Except.ok demoCurrent) (Except.ok ()) demoObj
        []).patchSent ≠ none :=
  (SetPhases_patch_iff_differs_from_original demoCurrent demoObj
    (Except.ok ()) []).mpr (by decide)

/-- C10: SetPhases never touches the caller's spec, name, namespace or
labels; on a lookup failure, a patch failure, or the no-write path the
caller's object is returned exactly as passed in; and on the successful
patch path only the status field is copied back. -/
theorem SetPhases_frame (getRes : Except String NeonObject)
    (patchRes : Except String Unit) (obj : NeonObject)
    (fns : List (NeonObject → NeonObject)) :
    ((SetPhases getRes patchRes obj fns).objAfter.name = obj.name
      ∧ (SetPhases getRes patchRes obj fns).objAfter.ns = obj.ns
      ∧ (SetPhases getRes patchRes obj fns).objAfter.spec = obj.spec
      ∧ (SetPhases getRes patchRes obj fns).objAfter.labels = obj.labels)
    ∧ (∀ e, (SetPhases getRes patchRes obj fns).retErr = some e →
        (SetPhases getRes patchRes obj fns).objAfter = obj)
    ∧ ((SetPhases getRes patchRes obj fns).patchSent = none →
        (SetPhases getRes patchRes obj fns).objAfter = obj)
    ∧ (∀ cur, getRes = Except.ok cur →
        (SetPhases getRes patchRes obj fns).retErr = none →
        (SetPhases getRes patchRes obj fns).patchSent ≠ none →
        (SetPhases getRes patchRes obj fns).objAfter
          = { obj with status := (applyStatusFns fns cur).status }) := by
  unfold SetPhases
  cases getRes with
  | error e => simp
  | ok cur =>
    by_cases h : obj.status = (applyStatusFns fns cur).status
    · simp [h]
    · cases patchRes with
      | error e => simp [h]
      | ok u => simp [h]

/-- C10 witness: on a failed lookup the caller's object is returned
untouched. -/
theorem SetPhases_frame_witness :
    (SetPhases (Except.error "boom") (Except.ok ()) demoObj
      []).objAfter = demoObj :=
  (SetPhases_frame (Except.error "boom") (Except.ok ()) demoObj
    []).2.1 "boom" rfl

/-- C5: the sub-resource synchronizer issues no create and no patch when
the stored object exists and the intended spec is a structural subset of
the stored spec; issues exactly one create, with the ownership link set,
when the stored object is missing; never issues a delete; and a second
pass against the document created by the first pass issues no further
write. -/
theorem reconcileSubresource_write_discipline :
    (∀ (owner : String) (intended : SubDoc) (env : SubEnv) (cur : SubDoc),
        env.stored = GetOutcome.found cur →
        DeepDerivative intended.docSpec cur.docSpec = true →
        (reconcileSubresource owner intended env).2 = [])
    ∧ (∀ (owner : String) (intended : SubDoc) (env : SubEnv),
        env.stored = GetOutcome.notFound → env.setRefOK = true →
        (reconcileSubresource owner intended env).2
          = [SubAction.create { intended with ownerRef := some owner }])
    ∧ (∀ (owner : String) (intended : SubDoc) (env : SubEnv) (nm : String),
        SubAction.delete nm ∉ (reconcileSubresource owner intended env).2)
    ∧ (∀ (owner : String) (intended : SubDoc) (env : SubEnv),
        intended.docSpec.wf = true →
        env.stored
          = GetOutcome.found { intended with ownerRef := some owner } →
        (reconcileSubresource owner intended env).2 = []) := by
  refine ⟨?_, ?_, ?_, ?_⟩
  · intro owner intended env cur hst hdd
    obtain ⟨st, ref, cr, pr⟩ := env
    simp only at hst
    subst hst
    cases ref <;> simp [reconcileSubresource, hdd]
  · intro owner intended env hst href
    obtain ⟨st, ref, cr, pr⟩ := env
    simp only at hst href
    subst hst
    subst href
    cases cr <;> simp [reconcileSubresource]
  · intro owner intended env nm
    obtain ⟨st, ref, cr, pr⟩ := env
    cases st <;> cases ref <;> cases cr <;> cases pr <;>
      simp [reconcileSubresource] <;> split <;> simp
  · intro owner intended env hwf hst
    obtain ⟨st, ref, cr, pr⟩ := env
    simp only at hst
    subst hst
    have hdd : DeepDerivative intended.docSpec intended.docSpec = true :=
      DeepDerivative_refl hwf
    cases ref <;> simp [reconcileSubresource, hdd]

/-- C5 witness: a pass over a store already holding the document created
by a previous pass issues no write. -/
theorem reconcileSubresource_write_discipline_witness :
    (reconcileSubresource "sk-1" (demoDoc "pod")
      (subEnvHolding { demoDoc "pod" with ownerRef := some "sk-1" })).2
      = [] :=
  reconcileSubresource_write_discipline.2.2.2 "sk-1" (demoDoc "pod")
    (subEnvHolding { demoDoc "pod" with ownerRef := some "sk-1" })
    (by decide) rfl

/-- C7 counterexample: with every child missing and every store call
succeeding, the Pageserver pass synchronizes the bootstrap config map
first — the trace order is config map, PVC, pod, service, which differs
from the claimed PVC-first order. -/
theorem createPageserverResources_configmap_before_pvc :
    ((createPageserverResources "ps-1" (demoDoc "cm") (demoDoc "pvc")
        (demoDoc "pod") (demoDoc "svc") psAllOkEnv).2.map Prod.fst
      = [PSStep.configMapStep, PSStep.pvcStep, PSStep.podStep,
         PSStep.serviceStep])
    ∧ [PSStep.configMapStep, PSStep.pvcStep, PSStep.podStep,
       PSStep.serviceStep]
      ≠ [PSStep.pvcStep, PSStep.configMapStep, PSStep.podStep,
         PSStep.serviceStep] :=
  ⟨rfl, by decide⟩

/-- C7 (amended): every trace of createPageserverResources consists of
the config-map actions, then the PVC actions, then the pod actions, then
the service actions, in that order; and the PVC pass is create-only —
once the claim exists in the store, it issues no write. -/
theorem createPageserverResources_order_and_pvc_create_only :
    (∀ (owner : String) (cmDoc pvcDoc podDoc svcDoc : SubDoc)
        (env : PageserverEnv),
        ∃ (l₁ l₂ l₃ l₄ : List SubAction),
          (createPageserverResources owner cmDoc pvcDoc podDoc svcDoc
              env).2
            = List.map (fun a => (PSStep.configMapStep, a)) l₁
              ++ (List.map (fun a => (PSStep.pvcStep, a)) l₂
                ++ (List.map (fun a => (PSStep.podStep, a)) l₃
                  ++ List.map (fun a => (PSStep.serviceStep, a)) l₄)))
    ∧ (∀ (owner : String) (intended : SubDoc) (env : SubEnv)
        (cur : SubDoc), env.stored = GetOutcome.found cur →
        (reconcilePVC owner intended env).2 = []) := by
  constructor
  · intro owner cmDoc pvcDoc podDoc svcDoc env
    unfold createPageserverResources
    rcases hbs : env.bucketSecretGet with e | u
    · exact ⟨[], [], [], [], by simp [hbs]⟩
    · rcases h₁ : reconcileSubresource owner cmDoc env.configMapEnv
        with ⟨r₁, a₁⟩
      rcases r₁ with e₁ | u₁
      · exact ⟨a₁, [], [], [], by simp [hbs, h₁]⟩
      · rcases h₂ : reconcilePVC owner pvcDoc env.pvcEnv with ⟨r₂, a₂⟩
        rcases r₂ with e₂ | u₂
        · exact ⟨a₁, a₂, [], [], by simp [hbs, h₁, h₂]⟩
        · rcases hcg : env.clusterGet with e₃ | u₃
          · exact ⟨a₁, a₂, [], [], by simp [hbs, h₁, h₂, hcg]⟩
          · rcases h₄ : reconcileSubresource owner podDoc env.podEnv
              with ⟨r₄, a₄⟩
            rcases r₄ with e₄ | u₄
            · exact ⟨a₁, a₂, a₄, [], by simp [hbs, h₁, h₂, hcg, h₄]⟩
            · rcases h₅ : reconcileSubresource owner svcDoc env.serviceEnv
                with ⟨r₅, a₅⟩
              exact ⟨a₁, a₂, a₄, a₅, by simp [hbs, h₁, h₂, hcg, h₄, h₅]⟩
  · intro owner intended env cur hst
    obtain ⟨st, ref, cr, pr⟩ := env
    simp only at hst
    subst hst
    cases ref <;> simp [reconcilePVC]

/-- C7 witness: a PVC pass over a store already holding the claim issues
no write. -/
theorem createPageserverResources_order_witness :
    (reconcilePVC "ps-1" (demoDoc "pvc")
      (subEnvHolding (demoDoc "pvc"))).2 = [] :=
  createPageserverResources_order_and_pvc_create_only.2 "ps-1"
    (demoDoc "pvc") (subEnvHolding (demoDoc "pvc")) (demoDoc "pvc") rfl

/-- C2 counterexample: the attach-tenant call treats HTTP 409 as a
failure — at status 409 it returns an error — while the create-timeline
call does treat 409 as success. The claim requires 409 to be success for
both. -/
theorem ensureTenantOnPageserver_409_is_failure :
    (ensureTenantOnPageserver (HTTPResponse.status 409)
        (Except.ok { phase := "PageserverConnectionError", conditions := [] })
        (Except.ok { phase := "TenantCreationFailed", conditions := [] })
        demoProject).1
      = Except.error "pageserver returned error status"
    ∧ (ensureTimeline (HTTPResponse.status 409) "t0123" "tl0123").1
      = Except.ok () :=
  ⟨rfl, rfl⟩

/-- C2 (amended): the attach-tenant call succeeds exactly on the 2xx
status codes (409 is a failure); the create-timeline call succeeds
exactly on 200, 201 and 409; a transport failure is an error for both;
and a failing attach makes the Project pass requeue after ten seconds
with a nil error — a retryable failure, never a hard one. -/
theorem tenant_timeline_status_classification
    (code : Nat) (e t tl : String)
    (sc stf : Except String ResourceStatus) (p : Project) :
    ((ensureTenantOnPageserver (HTTPResponse.status code) sc stf p).1
        = Except.ok () ↔ (200 ≤ code ∧ code < 300))
    ∧ ((ensureTimeline (HTTPResponse.status code) t tl).1 = Except.ok ()
        ↔ (code = 200 ∨ code = 201 ∨ code = 409))
    ∧ (∃ m, (ensureTenantOnPageserver (HTTPResponse.transportErr e) sc stf
        p).1 = Except.error m)
    ∧ (∃ m, (ensureTimeline (HTTPResponse.transportErr e) t tl).1
        = Except.error m)
    ∧ (∀ (o : ProjectOracle), p.pstatus.phase ≠ "" →
        p.pspec.tenantID ≠ "" →
        (∀ c, o.http = HTTPResponse.status c → ¬(200 ≤ c ∧ c < 300)) →
        ((ProjectReconciler.reconcile o p).res = ⟨10⟩
          ∧ (ProjectReconciler.reconcile o p).err = none)) := by
  refine ⟨?_, ?_, ⟨_, rfl⟩, ⟨_, rfl⟩, ?_⟩
  · simp only [ensureTenantOnPageserver]
    split
    · rename_i h
      simp only [decide_eq_true_eq, Bool.or_eq_true] at h
      simp only [reduceCtorEq, false_iff]
      omega
    · rename_i h
      simp only [decide_eq_true_eq, Bool.or_eq_true] at h
      simp only [true_iff]
      omega
  · simp only [ensureTimeline]
    split
    · rename_i h
      simp only [bne_iff_ne, Bool.and_eq_true, ne_eq] at h
      simp only [reduceCtorEq, false_iff]
      omega
    · rename_i h
      simp only [bne_iff_ne, Bool.and_eq_true, ne_eq] at h
      simp only [true_iff]
      omega
  · intro o hphase htenant hbad
    simp only [ProjectReconciler.reconcile, hphase, htenant, if_false,
      ite_false, if_neg]
    rcases hh : o.http with e₂ | c
    · simp [ensureTenantOnPageserver, hh]
    · have hc := hbad c hh
      have hcond : (decide (c < 200) || decide (c ≥ 300)) = true := by
        simp only [Bool.or_eq_true, decide_eq_true_eq]
        omega
      simp [ensureTenantOnPageserver, hh, hcond]

/-- C2 witness: a 500 response to the attach call makes the Project pass
requeue after ten seconds. -/
theorem tenant_timeline_status_classification_witness :
    (ProjectReconciler.reconcile
        { demoProjectOracle with http := HTTPResponse.status 500 }
        demoProject).res = ⟨10⟩ :=
  ((tenant_timeline_status_classification 500 "e" "t" "tl"
      (Except.ok { phase := "PageserverConnectionError", conditions := [] })
      (Except.ok { phase := "TenantCreationFailed", conditions := [] })
      demoProject).2.2.2.2
    { demoProjectOracle with http := HTTPResponse.status 500 }
    (by decide) (by decide)
    (by intro c hc; cases hc; decide)).1

/-- C3: on a not-found lookup of the reconciled resource, the Project,
Branch, Safekeeper and Pageserver controllers return an empty result
with no error and perform no further actions, whatever the inner pass
would do — but the Cluster controller, which omits the nil-handle check
after getCluster, dereferences the nil handle and panics instead. -/
theorem notfound_silent_except_cluster_panics :
    (∀ (β : Type) (inner : Cluster → CtrlResult × Option GoError × List β),
        ClusterReconciler.Reconcile GetOutcome.notFound inner
          = ReconcileTopOut.panicked)
    ∧ (∀ (β : Type)
        (inner : Project → CtrlResult × Option GoError × List β),
        ProjectReconciler.Reconcile GetOutcome.notFound inner
          = ReconcileTopOut.returned ⟨0⟩ none [])
    ∧ (∀ (β : Type)
        (inner : Branch → CtrlResult × Option GoError × List β),
        BranchReconciler.Reconcile GetOutcome.notFound inner
          = ReconcileTopOut.returned ⟨0⟩ none [])
    ∧ (∀ (β : Type)
        (inner : Safekeeper → CtrlResult × Option GoError × List β),
        SafekeeperReconciler.Reconcile GetOutcome.notFound inner
          = ReconcileTopOut.returned ⟨0⟩ none [])
    ∧ (∀ (β : Type)
        (inner : Pageserver → CtrlResult × Option GoError × List β),
        PageserverReconciler.Reconcile GetOutcome.notFound inner
          = ReconcileTopOut.returned ⟨0⟩ none []) :=
  ⟨fun _ _ => rfl, fun _ _ => rfl, fun _ _ => rfl, fun _ _ => rfl,
    fun _ _ => rfl⟩

/-- C8 counterexample: a concrete draw stream makes GenerateNeonID
return a 32-character identifier containing no hexadecimal digit at all,
so generated identifiers are not hexadecimal strings. -/
theorem GenerateNeonID_not_hexadecimal :
    (GenerateNeonID (fun _ => 25)).length = 32
    ∧ (GenerateNeonID (fun _ => 25)).toList.all isHexDigit = false :=
  ⟨by decide, by decide⟩

/-- C8 (amended): every generated identifier is a fixed-length
32-character string over the 62-character alphanumeric alphabet of
utils/ids.go (lowercase, uppercase, digits) — an alphabet larger than
the hexadecimal digits, drawn from a time-seeded math/rand stream. -/
theorem GenerateNeonID_alphanumeric (draw : Nat → Nat) :
    (GenerateNeonID draw).length = 32
    ∧ ∀ c ∈ (GenerateNeonID draw).toList, c ∈ idCharset := by
  constructor
  · simp [GenerateNeonID, String.length]
  · intro c hc
    simp only [GenerateNeonID, String.toList, String.mk, List.mem_map,
      List.mem_range] at hc
    obtain ⟨i, _, rfl⟩ := hc
    have hlt : draw i % idCharset.length < idCharset.length :=
      Nat.mod_lt _ (by decide)
    exact getD_mem_of_lt hlt

/-- C8 witness: a concrete draw stream gives a 32-character identifier,
and the characters it produces belong to the alphabet. -/
theorem GenerateNeonID_alphanumeric_witness :
    (GenerateNeonID (fun _ => 0)).length = 32 ∧ 'a' ∈ idCharset :=
  ⟨(GenerateNeonID_alphanumeric (fun _ => 0)).1,
    (GenerateNeonID_alphanumeric (fun _ => 0)).2 'a' (by decide)⟩

/-- C9: token verification fails closed — a structurally invalid token
never yields claims, a token whose signature does not verify under the
manager's public key never yields claims, and a token produced by
GenerateToken verifies exactly when the verifier's public key matches
the key derived from the signer's private key. -/
theorem VerifyToken_fails_closed :
    (∀ (jm : JWTManager) (raw : String),
        ∃ e, VerifyToken jm (TokenString.malformed raw) = Except.error e)
    ∧ (∀ (jm : JWTManager) (t : SignedToken), t.sigKey ≠ jm.publicKey →
        ∃ e, VerifyToken jm (TokenString.wellFormed t) = Except.error e)
    ∧ (∀ (jmS jmV : JWTManager) (claims : List (String × String)),
        VerifyToken jmV (GenerateToken jmS claims) = Except.ok claims
          ↔ jmV.publicKey = ed25519Pub jmS.privateKey) := by
  refine ⟨fun jm raw => ⟨_, rfl⟩, ?_, ?_⟩
  · intro jm t h
    refine ⟨"signature verification failed", ?_⟩
    simp [VerifyToken, h]
  · intro jmS jmV claims
    simp only [VerifyToken, GenerateToken]
    by_cases h : ed25519Pub jmS.privateKey = jmV.publicKey
    · simp [h, eq_comm]
    · simp only [h, ite_false, if_neg, reduceCtorEq, false_iff]
      exact fun hh => h hh.symm

/-- C9 witness: verification under a mismatched public key fails. -/
theorem VerifyToken_fails_closed_witness :
    ∃ e, VerifyToken { privateKey := 1, publicKey := 2 }
        (TokenString.wellFormed { tokClaims := [], sigKey := 5 })
      = Except.error e :=
  VerifyToken_fails_closed.2.1 { privateKey := 1, publicKey := 2 }
    { tokClaims := [], sigKey := 5 } (by decide)

theorem ensureTenant_frame (http : HTTPResponse)
    (sce stf : Except String ResourceStatus) (p : Project) :
    (ensureTenantOnPageserver http sce stf p).2.1.pspec = p.pspec
    ∧ ∀ d, ProjectAction.specPatch d
        ∉ (ensureTenantOnPageserver http sce stf p).2.2 := by
  rcases http with e | c
  · cases sce <;> simp [ensureTenantOnPageserver]
  · simp only [ensureTenantOnPageserver]
    split
    · cases stf <;> simp
    · simp

theorem ensureTimeline_shape (http : HTTPResponse) (t tl : String) :
    (ensureTimeline http t tl).2 = [BranchAction.createTimeline t tl] := by
  rcases http with e | c
  · rfl
  · simp only [ensureTimeline]
    split <;> rfl

theorem project_pass_keeps_spec (o : ProjectOracle) (p : Project)
    (h : p.pspec.tenantID ≠ "") :
    (ProjectReconciler.reconcile o p).handle.pspec = p.pspec
    ∧ ∀ d, ProjectAction.specPatch d
        ∉ (ProjectReconciler.reconcile o p).actions := by
  have hens := ensureTenant_frame o.http o.setConnErr o.setTenantFailed
  unfold ProjectReconciler.reconcile
  by_cases hph : p.pstatus.phase = ""
  · cases hsp : o.setPending with
    | error e => simp [hph, hsp]
    | ok s =>
      simp only [hph, if_true, hsp]
      have hid : ({ p with pstatus := s } : Project).pspec.tenantID ≠ "" := h
      rw [if_neg hid]
      rcases hen : ensureTenantOnPageserver o.http o.setConnErr
          o.setTenantFailed { p with pstatus := s } with ⟨r, p₂, eacts⟩
      have h₁ : p₂.pspec = p.pspec := by
        have := (hens { p with pstatus := s }).1
        rw [hen] at this
        exact this
      have h₂ : ∀ d, ProjectAction.specPatch d ∉ eacts := by
        intro d
        have := (hens { p with pstatus := s }).2 d
        rw [hen] at this
        exact this
      cases r with
      | error e => simp [h₁, h₂]
      | ok u =>
        cases hsr : o.setReady with
        | error e => simp [h₁, h₂]
        | ok s₂ => simp [h₁, h₂]
  · simp only [hph, if_false, ite_false, if_neg]
    rw [if_neg h]
    rcases hen : ensureTenantOnPageserver o.http o.setConnErr
        o.setTenantFailed p with ⟨r, p₂, eacts⟩
    have h₁ : p₂.pspec = p.pspec := by
      have := (hens p).1
      rw [hen] at this
      exact this
    have h₂ : ∀ d, ProjectAction.specPatch d ∉ eacts := by
      intro d
      have := (hens p).2 d
      rw [hen] at this
      exact this
    cases r with
    | error e => simp [h₁, h₂]
    | ok u =>
      cases hsr : o.setReady with
      | error e => simp [h₁, h₂]
      | ok s₂ => simp [h₁, h₂]

theorem projectIterate_keeps (os : List ProjectOracle) (p : Project)
    (h : p.pspec.tenantID ≠ "") :
    (projectIterate os p).pspec.tenantID = p.pspec.tenantID := by
  induction os generalizing p with
  | nil => rfl
  | cons o os ih =>
    have h₁ := (project_pass_keeps_spec o p h).1
    rw [projectIterate, ih _ (by rw [h₁]; exact h), h₁]

theorem branch_pass_keeps_spec (o : BranchOracle) (b : Branch)
    (h : b.bspec.timelineID ≠ "") :
    (BranchReconciler.reconcile o b).handle.bspec = b.bspec
    ∧ ∀ d, BranchAction.specPatch d
        ∉ (BranchReconciler.reconcile o b).actions := by
  unfold BranchReconciler.reconcile
  by_cases hph : b.bstatus.phase = ""
  · cases hsc : o.setCreating with
    | error e => simp [hph, hsc]
    | ok s =>
      simp only [hph, if_true, hsc]
      have hid : ({ b with bstatus := s } : Branch).bspec.timelineID ≠ "" := h
      rw [if_neg hid]
      cases hpg : o.projectGet with
      | error e => simp
      | ok proj =>
        dsimp only
        rcases hht : o.http with e | c
        · simp [ensureTimeline, hht]
        · by_cases hc : (c != 200 && c != 201 && c != 409) = true
          · simp [ensureTimeline, hht, hc]
          · cases hcr : o.childRes with
            | error e₂ =>
              cases hscc : o.setCannotCreate <;>
                simp [ensureTimeline, hht, hc, hcr, hscc]
            | ok u₂ =>
              cases hsr : o.setReady with
              | error e₂ => simp [ensureTimeline, hht, hc, hcr, hsr]
              | ok s₂ => simp [ensureTimeline, hht, hc, hcr, hsr]
  · simp only [hph, if_false, ite_false, if_neg]
    rw [if_neg h]
    cases hpg : o.projectGet with
    | error e => simp
    | ok proj =>
      dsimp only
      rcases hht : o.http with e | c
      · simp [ensureTimeline, hht]
      · by_cases hc : (c != 200 && c != 201 && c != 409) = true
        · simp [ensureTimeline, hht, hc]
        · cases hcr : o.childRes with
          | error e₂ =>
            cases hscc : o.setCannotCreate <;>
              simp [ensureTimeline, hht, hc, hcr, hscc]
          | ok u₂ =>
            cases hsr : o.setReady with
            | error e₂ => simp [ensureTimeline, hht, hc, hcr, hsr]
            | ok s₂ => simp [ensureTimeline, hht, hc, hcr, hsr]

theorem branchIterate_keeps (os : List BranchOracle) (b : Branch)
    (h : b.bspec.timelineID ≠ "") :
    (branchIterate os b).bspec.timelineID = b.bspec.timelineID := by
  induction os generalizing b with
  | nil => rfl
  | cons o os ih =>
    have h₁ := (branch_pass_keeps_spec o b h).1
    rw [branchIterate, ih _ (by rw [h₁]; exact h), h₁]

theorem project_generation_pass (o : ProjectOracle) (p : Project)
    (sp sc : ResourceStatus) (latest : Project)
    (h : p.pspec.tenantID = "") (hsp : o.setPending = Except.ok sp)
    (hsc : o.setCreating = Except.ok sc)
    (hgl : o.getLatest = Except.ok latest)
    (hps : o.patchSpec = Except.ok ()) :
    ProjectReconciler.reconcile o p
      = { res := ⟨1⟩, err := some GoError.requeueAfterChange
          handle := { pname := p.pname, pns := p.pns
                      pspec := { p.pspec with tenantID := o.genID }
                      pstatus := sc }
          actions :=
            (if p.pstatus.phase = "" then
              [ProjectAction.statusWrite "Pending"] else [])
            ++ [ProjectAction.statusWrite "Creating",
                ProjectAction.readLatest,
                ProjectAction.specPatch
                  { latest.pspec with tenantID := o.genID }] } := by
  unfold ProjectReconciler.reconcile
  by_cases hph : p.pstatus.phase = "" <;>
    simp [hph, hsp, hsc, h, updateTenantID, hgl, hps]

theorem branch_generation_pass (o : BranchOracle) (b : Branch)
    (sc : ResourceStatus) (latest : Branch)
    (h : b.bspec.timelineID = "") (hsc : o.setCreating = Except.ok sc)
    (hgl : o.getLatest = Except.ok latest)
    (hps : o.patchSpec = Except.ok ()) :
    BranchReconciler.reconcile o b
      = { res := ⟨1⟩, err := none
          handle := { bname := b.bname, bns := b.bns
                      bspec := { b.bspec with timelineID := o.genID }
                      bstatus :=
                        if b.bstatus.phase = "" then sc else b.bstatus }
          actions :=
            (if b.bstatus.phase = "" then
              [BranchAction.statusWrite "Creating"] else [])
            ++ [BranchAction.readLatest,
                BranchAction.specPatch
                  { latest.bspec with timelineID := o.genID }] } := by
  unfold BranchReconciler.reconcile
  by_cases hph : b.bstatus.phase = "" <;>
    simp [hph, hsc, h, updateTimelineID, hgl, hps]

/-- C4: once a Project carries a non-empty tenant identifier, or a
Branch a non-empty timeline identifier, no reconcile pass — and no
sequence of passes — ever changes it, and the generate-and-patch step
never runs: no spec patch is issued. -/
theorem identifier_immutability :
    (∀ (o : ProjectOracle) (p : Project), p.pspec.tenantID ≠ "" →
        ((ProjectReconciler.reconcile o p).handle.pspec.tenantID
            = p.pspec.tenantID
          ∧ ∀ d, ProjectAction.specPatch d
              ∉ (ProjectReconciler.reconcile o p).actions))
    ∧ (∀ (os : List ProjectOracle) (p : Project), p.pspec.tenantID ≠ "" →
        (projectIterate os p).pspec.tenantID = p.pspec.tenantID)
    ∧ (∀ (o : BranchOracle) (b : Branch), b.bspec.timelineID ≠ "" →
        ((BranchReconciler.reconcile o b).handle.bspec.timelineID
            = b.bspec.timelineID
          ∧ ∀ d, BranchAction.specPatch d
              ∉ (BranchReconciler.reconcile o b).actions))
    ∧ (∀ (os : List BranchOracle) (b : Branch), b.bspec.timelineID ≠ "" →
        (branchIterate os b).bspec.timelineID = b.bspec.timelineID) := by
  refine ⟨?_, ?_, ?_, ?_⟩
  · intro o p h
    have h₁ := project_pass_keeps_spec o p h
    exact ⟨by rw [h₁.1], h₁.2⟩
  · exact projectIterate_keeps
  · intro o b h
    have h₁ := branch_pass_keeps_spec o b h
    exact ⟨by rw [h₁.1], h₁.2⟩
  · exact branchIterate_keeps

/-- C4 witness: two passes over a Project that already carries a tenant
identifier leave the identifier unchanged. -/
theorem identifier_immutability_witness :
    (projectIterate [demoProjectOracle, demoProjectOracle]
        demoProject).pspec.tenantID = demoProject.pspec.tenantID :=
  identifier_immutability.2.1 [demoProjectOracle, demoProjectOracle]
    demoProject (by decide)

/-- C6: when the identifier is unset and the store cooperates, the
Project pass (and likewise the Branch pass) generates an identifier,
re-reads the latest stored revision, patches that revision's own spec —
preserving its concurrently edited fields — and returns a one-second
requeue with no error at the controller boundary, without attaching a
tenant, creating a timeline, reading the owning project, or
synchronizing any child resource. -/
theorem identifier_generation_soft_continue :
    (∀ (o : ProjectOracle) (p : Project) (sp sc : ResourceStatus)
        (latest : Project),
        p.pspec.tenantID = "" → o.setPending = Except.ok sp →
        o.setCreating = Except.ok sc → o.getLatest = Except.ok latest →
        o.patchSpec = Except.ok () →
        ((ProjectReconciler.reconcile o p).res = ⟨1⟩
          ∧ (ProjectReconciler.reconcile o p).err
              = some GoError.requeueAfterChange
          ∧ ProjectReconciler.Reconcile (GetOutcome.found p)
              (fun q => ((ProjectReconciler.reconcile o q).res,
                (ProjectReconciler.reconcile o q).err,
                (ProjectReconciler.reconcile o q).actions))
              = ReconcileTopOut.returned ⟨1⟩ none
                  (ProjectReconciler.reconcile o p).actions
          ∧ ProjectAction.readLatest
              ∈ (ProjectReconciler.reconcile o p).actions
          ∧ ProjectAction.specPatch { latest.pspec with tenantID := o.genID }
              ∈ (ProjectReconciler.reconcile o p).actions
          ∧ (∀ t, ProjectAction.attachTenant t
              ∉ (ProjectReconciler.reconcile o p).actions)
          ∧ (ProjectReconciler.reconcile o p).handle.pspec.tenantID
              = o.genID))
    ∧ (∀ (o : BranchOracle) (b : Branch) (sc : ResourceStatus)
        (latest : Branch),
        b.bspec.timelineID = "" → o.setCreating = Except.ok sc →
        o.getLatest = Except.ok latest → o.patchSpec = Except.ok () →
        ((BranchReconciler.reconcile o b).res = ⟨1⟩
          ∧ (BranchReconciler.reconcile o b).err = none
          ∧ BranchReconciler.Reconcile (GetOutcome.found b)
              (fun q => ((BranchReconciler.reconcile o q).res,
                (BranchReconciler.reconcile o q).err,
                (BranchReconciler.reconcile o q).actions))
              = ReconcileTopOut.returned ⟨1⟩ none
                  (BranchReconciler.reconcile o b).actions
          ∧ BranchAction.readLatest
              ∈ (BranchReconciler.reconcile o b).actions
          ∧ BranchAction.specPatch { latest.bspec with timelineID := o.genID }
              ∈ (BranchReconciler.reconcile o b).actions
          ∧ (∀ t tl, BranchAction.createTimeline t tl
              ∉ (BranchReconciler.reconcile o b).actions)
          ∧ (∀ k, BranchAction.childSync k
              ∉ (BranchReconciler.reconcile o b).actions)
          ∧ BranchAction.getOwningProject
              ∉ (BranchReconciler.reconcile o b).actions
          ∧ (BranchReconciler.reconcile o b).handle.bspec.timelineID
              = o.genID)) := by
  constructor
  · intro o p sp sc latest h hsp hsc hgl hps
    have heq := project_generation_pass o p sp sc latest h hsp hsc hgl hps
    refine ⟨by rw [heq], by rw [heq], ?_, ?_, ?_, ?_, by rw [heq]⟩
    · simp only [ProjectReconciler.Reconcile, getProjectByRequest,
        getResource, dispatchInner, heq]
    · rw [heq]
      by_cases hph : p.pstatus.phase = "" <;> simp [hph]
    · rw [heq]
      by_cases hph : p.pstatus.phase = "" <;> simp [hph]
    · intro t
      rw [heq]
      by_cases hph : p.pstatus.phase = "" <;> simp [hph]
  · intro o b sc latest h hsc hgl hps
    have heq := branch_generation_pass o b sc latest h hsc hgl hps
    refine ⟨by rw [heq], by rw [heq], ?_, ?_, ?_, ?_, ?_, ?_, by rw [heq]⟩
    · simp only [BranchReconciler.Reconcile, getBranch, getResource,
        dispatchInner, heq]
    · rw [heq]
      by_cases hph : b.bstatus.phase = "" <;> simp [hph]
    · rw [heq]
      by_cases hph : b.bstatus.phase = "" <;> simp [hph]
    · intro t tl
      rw [heq]
      by_cases hph : b.bstatus.phase = "" <;> simp [hph]
    · intro k
      rw [heq]
      by_cases hph : b.bstatus.phase = "" <;> simp [hph]
    · rw [heq]
      by_cases hph : b.bstatus.phase = "" <;> simp [hph]

/-- C6 witness: a Project without a tenant identifier, under an
all-success store, requeues after one second with the sentinel
swallowed, and its in-memory handle carries the generated identifier. -/
theorem identifier_generation_soft_continue_witness :
    (ProjectReconciler.reconcile demoProjectOracle
        demoProjectNoTenant).res = ⟨1⟩
    ∧ (ProjectReconciler.reconcile demoProjectOracle
        demoProjectNoTenant).handle.pspec.tenantID
      = demoProjectOracle.genID :=
  ⟨(identifier_generation_soft_continue.1 demoProjectOracle
      demoProjectNoTenant { phase := "Pending", conditions := [] }
      { phase := "Creating", conditions := [] } demoProjectNoTenant
      rfl rfl rfl rfl rfl).1,
    (identifier_generation_soft_continue.1 demoProjectOracle
      demoProjectNoTenant { phase := "Pending", conditions := [] }
      { phase := "Creating", conditions := [] } demoProjectNoTenant
      rfl rfl rfl rfl rfl).2.2.2.2.2.2⟩

end NeonOperator
